import Mathlib

/-!
# Verification of the Cisco ASA session overlay (netdev/cisco/cisco_asa.py)

A shallow embedding of the `CiscoAsa` class: the prompt/context parser
(`_set_base_prompt`), the command-dispatch wrapper (`send_command`), the
mode detector (`_check_multiple_mode`), the command catalog
(`_get_default_command`) and the connect orchestration (`connect`).

Text is modelled as `List Char` (Python `str`).  Every stateful method is a
function `Collaborator → AsaState → Except AsaError α × AsaState`: Python
exceptions propagate but mutations made before the raise persist, so the
state component is returned on both the success and the error path.

The base-class collaborator primitives (`_find_prompt`,
`_establish_connection`, `_enable`, `_disable_paging` and the generic
`send_command` of `CiscoLikeDevice`) are not part of the source file; they
are modelled from the spec at their interface boundary, each marked
`Modelled from the spec:` in its doc comment.
-/

/-- Python `str` modelled as a list of characters. -/
abbrev Str := List Char

/-- Python substring test `needle in hay` (`str.__contains__`). -/
def isSubstrOf (needle : Str) : Str → Bool
  | [] => needle.isEmpty
  | c :: rest => needle.isPrefixOf (c :: rest) || isSubstrOf needle rest

/-- Python `s.split(sep)` for a one-character separator `sep`:
splits at every occurrence, keeping empty pieces, and returns `[s]`
when the separator does not occur (`"".split(sep) == ['']`). -/
def pySplit (c : Char) : Str → List Str
  | [] => [[]]
  | x :: xs =>
    match pySplit c xs with
    | [] => [[]]
    | r :: rs => if x = c then [] :: r :: rs else (x :: r) :: rs

/-- The characters Python 3.7+ `re.escape` escapes
(CPython `_special_chars_map`). -/
def pySpecial : Str :=
  ['(', ')', '[', ']', Char.ofNat 123, Char.ofNat 125, '?', '*', '+', '-',
   '|', '^', '$', '\\', '.', '&', '~', '#', ' ', '\t', '\n', '\r',
   Char.ofNat 11, Char.ofNat 12]

/-- Python `re.escape`: prefix every special character with a backslash. -/
def pyReEscape : Str → Str
  | [] => []
  | c :: rest =>
    if c ∈ pySpecial then '\\' :: c :: pyReEscape rest
    else c :: pyReEscape rest

/-- The characters a regex character class `[...]` accepts, given the text
between its brackets: a backslash escapes the character after it. -/
def classChars : Str → Str
  | [] => []
  | '\\' :: c :: rest => c :: classChars rest
  | c :: rest => c :: classChars rest

/-- Errors of the embedded program.  `malformedPrompt` is the spec's
`MalformedPromptError` (collaborator found no delimiter), `valueError` is
Python's `ValueError` from tuple unpacking, `keyError` is the dict lookup
failure the spec calls `UnknownCommandKind`, `transportError` covers the
collaborator's transport failures. -/
inductive AsaError where
  | malformedPrompt
  | valueError
  | keyError (k : String)
  | transportError
  deriving DecidableEq, Repr

/-- Observable collaborator-primitive invocations, recorded in order. -/
inductive Ev where
  | establish
  | findPrompt
  | enable
  | disablePaging
  | send (cmd : Str)
  deriving DecidableEq, Repr

/-- The mutable state of a `CiscoAsa` object: `base_prompt`,
`base_pattern` (inherited fields), `_current_context`, `_multiple_mode`,
plus instrumentation: how often the prompt-discovery primitive ran, and
the trace of collaborator invocations. -/
structure AsaState where
  base_prompt : Str
  base_pattern : Str
  current_context : Str
  multiple_mode : Bool
  find_prompt_calls : Nat
  trace : List Ev
  deriving DecidableEq, Repr

/-- The state `__init__` leaves behind: `_current_context = 'system'`,
`_multiple_mode = False`, identity fields empty. -/
def initState : AsaState :=
  { base_prompt := []
    base_pattern := []
    current_context := "system".data
    multiple_mode := false
    find_prompt_calls := 0
    trace := [] }

/-- The base-session collaborator at its interface boundary: outcomes of
the transport / privilege / paging steps, the raw prompt its discovery
primitive reads, and the output its generic command-send returns. -/
structure Collaborator where
  establish_ok : Bool
  rawPrompt : Str
  enable_ok : Bool
  disable_paging_ok : Bool
  respond : Str → Bool → Bool → Str

/-- A raw prompt is well terminated when it ends in one of the two
catalog delimiters `>` or `#`. -/
def endsWithDelim (l : Str) : Bool :=
  (l.getLast? == some '#') || (l.getLast? == some '>')

/-- Modelled from the spec: `_establish_connection` (transport
establishment, provided by the base session abstraction, absent from the
source file) — fails on transport/auth error. -/
def _establish_connection (col : Collaborator) (s : AsaState) :
    Except AsaError Unit × AsaState :=
  if col.establish_ok then (.ok (), { s with trace := s.trace ++ [.establish] })
  else (.error .transportError, { s with trace := s.trace ++ [.establish] })

/-- Modelled from the spec: `_find_prompt` (the low-level raw-prompt
discovery primitive of the base session abstraction, absent from the
source file) — returns the raw prompt, and fails with
`MalformedPromptError` when no delimiter terminates it. -/
def _find_prompt (col : Collaborator) (s : AsaState) :
    Except AsaError Str × AsaState :=
  let s' := { s with trace := s.trace ++ [.findPrompt],
                     find_prompt_calls := s.find_prompt_calls + 1 }
  if endsWithDelim col.rawPrompt then (.ok col.rawPrompt, s')
  else (.error .malformedPrompt, s')

/-- Modelled from the spec: `_enable` (privileged-mode entry, provided by
the base session abstraction, absent from the source file). -/
def _enable (col : Collaborator) (s : AsaState) :
    Except AsaError Unit × AsaState :=
  if col.enable_ok then (.ok (), { s with trace := s.trace ++ [.enable] })
  else (.error .transportError, { s with trace := s.trace ++ [.enable] })

/-- Modelled from the spec: `_disable_paging` (paging suppression,
provided by the base session abstraction, absent from the source file). -/
def _disable_paging (col : Collaborator) (s : AsaState) :
    Except AsaError Unit × AsaState :=
  if col.disable_paging_ok then
    (.ok (), { s with trace := s.trace ++ [.disablePaging] })
  else (.error .transportError, { s with trace := s.trace ++ [.disablePaging] })

/-- Modelled from the spec: the generic command-send primitive
`CiscoLikeDevice.send_command` (the `super().send_command(...)` call),
absent from the source file — one round-trip returning the device output
for the command. -/
def send_command_base (col : Collaborator) (s : AsaState) (command_string : Str)
    (strip_prompt strip_command : Bool) : Except AsaError Str × AsaState :=
  (.ok (col.respond command_string strip_prompt strip_command),
   { s with trace := s.trace ++ [.send command_string] })

/-- Embeds the static `command_mapper` dict of `CiscoAsa._get_default_command`. -/
def command_mapper : List (String × String) :=
  [("delimeter1", ">"),
   ("delimeter2", "#"),
   ("pattern", "\x7b\x7d.*?(\\(.*?\\))?[\x7b\x7d|\x7b\x7d]"),
   ("disable_paging", "terminal pager 0"),
   ("priv_enter", "enable"),
   ("priv_exit", "disable"),
   ("config_enter", "conf t"),
   ("config_exit", "end"),
   ("config_check", ")#"),
   ("check_config_mode", ")#")]

/-- Embeds `CiscoAsa._get_default_command`: a pure dict lookup; an unrecognized
name raises `KeyError` (the spec's `UnknownCommandKind`). -/
def _get_default_command (command : String) : Except AsaError String :=
  match command_mapper.find? (fun p => p.1 == command) with
  | some p => .ok p.2
  | none => .error (.keyError command)

/-- The literal middle of the ASA base-pattern format string
`.*(\/\w+)?(\(.*?\))?[` (between the escaped prompt prefix and the
delimiter character class). -/
def patternMid : Str := (".*(\\/\\w+)?(\\(.*?\\))?[").data

/-- The tail of `CiscoAsa._set_base_prompt`: assigns `_base_pattern` from
the already-stored `_base_prompt`, the two catalog delimiters and the
format template `prompt.*(\/\w+)?(\(.*?\))?[d1|d2]`. -/
def base_pattern_step (s : AsaState) : Except AsaError Str × AsaState :=
  match _get_default_command "delimeter1" with
  | .error e => (.error e, s)
  | .ok delimeter1 =>
    match _get_default_command "delimeter2" with
    | .error e => (.error e, s)
    | .ok delimeter2 =>
      let pat := pyReEscape (s.base_prompt.take 12) ++ patternMid ++
        pyReEscape delimeter1.data ++ '|' :: pyReEscape delimeter2.data ++ [']']
      let s' := { s with base_pattern := pat }
      (.ok s'.base_prompt, s')

/-- Embeds `CiscoAsa._set_base_prompt`: reads the raw prompt, strips the last
character, splits `prompt/context` on `/` by tuple unpacking (a Python
`ValueError` when the split does not yield exactly two pieces), stores
`_base_prompt` and `_current_context`, then derives `_base_pattern`. -/
def _set_base_prompt (col : Collaborator) (s : AsaState) :
    Except AsaError Str × AsaState :=
  match _find_prompt col s with
  | (.error e, s1) => (.error e, s1)
  | (.ok prompt0, s1) =>
    if isSubstrOf ['/'] prompt0 then
      match pySplit '/' prompt0.dropLast with
      | [prompt, context] =>
        base_pattern_step
          { s1 with base_prompt := prompt, current_context := context }
      | _ => (.error .valueError, s1)
    else
      base_pattern_step
        { s1 with base_prompt := prompt0.dropLast,
                  current_context := "system".data }

/-- Embeds `CiscoAsa.send_command`: delegates to the base primitive, then
re-runs `_set_base_prompt` when the command text contains `"changet"`,
and returns the original command's output. -/
def send_command (col : Collaborator) (s : AsaState) (command_string : Str)
    (strip_prompt strip_command : Bool) : Except AsaError Str × AsaState :=
  match send_command_base col s command_string strip_prompt strip_command with
  | (.error e, s1) => (.error e, s1)
  | (.ok output, s1) =>
    if isSubstrOf ("changet").data command_string then
      match _set_base_prompt col s1 with
      | (.error e, s2) => (.error e, s2)
      | (.ok _, s2) => (.ok output, s2)
    else (.ok output, s1)

/-- Embeds `CiscoAsa._check_multiple_mode`: sends `show mode` and sets
`_multiple_mode` to true when the output contains `"multiple"`. -/
def _check_multiple_mode (col : Collaborator) (s : AsaState) :
    Except AsaError Unit × AsaState :=
  match send_command col s ("show mode").data true true with
  | (.error e, s1) => (.error e, s1)
  | (.ok out, s1) =>
    if isSubstrOf ("multiple").data out then
      (.ok (), { s1 with multiple_mode := true })
    else (.ok (), s1)

/-- Embeds `CiscoAsa.connect`: transport establishment, prompt discovery and
parsing, privileged-mode entry, paging suppression, mode detection —
strictly in this order, stopping at the first failure. -/
def connect (col : Collaborator) (s : AsaState) :
    Except AsaError Unit × AsaState :=
  match _establish_connection col s with
  | (.error e, s1) => (.error e, s1)
  | (.ok _, s1) =>
    match _set_base_prompt col s1 with
    | (.error e, s2) => (.error e, s2)
    | (.ok _, s2) =>
      match _enable col s2 with
      | (.error e, s3) => (.error e, s3)
      | (.ok _, s3) =>
        match _disable_paging col s3 with
        | (.error e, s4) => (.error e, s4)
        | (.ok _, s4) =>
          match _check_multiple_mode col s4 with
          | (.error e, s5) => (.error e, s5)
          | (.ok _, s5) => (.ok (), s5)

deriving instance DecidableEq for Except

/-- A collaborator whose transport steps succeed and whose prompt
discovery reads `raw`; device output for every command is empty. -/
def mkCol (raw : String) : Collaborator :=
  { establish_ok := true
    rawPrompt := raw.data
    enable_ok := true
    disable_paging_ok := true
    respond := fun _ _ _ => [] }

/-- A fully healthy collaborator: single-context prompt `ciscoasa#`,
`show mode` reporting multiple-context operation, a fixed output for any
other command. -/
def asaCol : Collaborator :=
  { establish_ok := true
    rawPrompt := ("ciscoasa#").data
    enable_ok := true
    disable_paging_ok := true
    respond := fun cmd _ _ =>
      if cmd = ("show mode").data then ("Security context mode: multiple").data
      else ("Result").data }

/-- The base pattern the parser derives from a base prompt: the escaped
first-12-character prefix, `.*`, the optional context and parenthetical
groups, and the delimiter character class built from the catalog's two
delimiters. -/
def derive_base_pattern (bp : Str) : Str :=
  pyReEscape (bp.take 12) ++ patternMid ++
    pyReEscape (">").data ++ '|' :: pyReEscape ("#").data ++ [']']

/-- The full invocation trace of a successful `connect`. -/
def connectTrace : List Ev :=
  [.establish, .findPrompt, .enable, .disablePaging, .send ("show mode").data]

/-! ## Helper lemmas on the Python string primitives -/

theorem isSubstrOf_singleton (c : Char) (l : Str) :
    isSubstrOf [c] l = true ↔ c ∈ l := by
  induction l with
  | nil => simp [isSubstrOf]
  | cons x xs ih =>
    show (List.isPrefixOf [c] (x :: xs) || isSubstrOf [c] xs) = true ↔ c ∈ x :: xs
    simp only [List.isPrefixOf, Bool.and_true, Bool.or_eq_true, beq_iff_eq, ih,
      List.mem_cons]

theorem pySplit_cons (c x : Char) (xs : Str) :
    pySplit c (x :: xs) =
      match pySplit c xs with
      | [] => [[]]
      | r :: rs => if x = c then [] :: r :: rs else (x :: r) :: rs := rfl

theorem pySplit_cons_eq {c x : Char} {xs r : Str} {rs : List Str}
    (h : pySplit c xs = r :: rs) :
    pySplit c (x :: xs) = if x = c then [] :: r :: rs else (x :: r) :: rs := by
  rw [pySplit_cons, h]

theorem pySplit_ne_nil (c : Char) (l : Str) : pySplit c l ≠ [] := by
  induction l with
  | nil => simp [pySplit]
  | cons x xs ih =>
    cases h : pySplit c xs with
    | nil => exact absurd h ih
    | cons r rs =>
      rw [pySplit_cons_eq h]
      split <;> simp

theorem pySplit_of_not_mem {c : Char} {l : Str} (h : c ∉ l) :
    pySplit c l = [l] := by
  induction l with
  | nil => rfl
  | cons x xs ih =>
    have hx : ¬(x = c) := fun e => h (e ▸ List.mem_cons_self x xs)
    have hxs : c ∉ xs := fun m => h (List.mem_cons_of_mem x m)
    rw [pySplit_cons_eq (ih hxs), if_neg hx]

theorem pySplit_append {c : Char} {xs : Str} (h : c ∉ xs) (ys : Str) :
    pySplit c (xs ++ c :: ys) = xs :: pySplit c ys := by
  induction xs with
  | nil =>
    cases h2 : pySplit c ys with
    | nil => exact absurd h2 (pySplit_ne_nil c ys)
    | cons r rs =>
      simp [pySplit_cons_eq h2, h2]
  | cons x xs ih =>
    have hx : ¬(x = c) := fun e => h (e ▸ List.mem_cons_self x xs)
    have hxs : c ∉ xs := fun m => h (List.mem_cons_of_mem x m)
    cases h2 : pySplit c (xs ++ c :: ys) with
    | nil => exact absurd h2 (pySplit_ne_nil c _)
    | cons r rs =>
      rw [List.cons_append, pySplit_cons_eq h2, if_neg hx]
      have hrec := ih hxs
      rw [h2] at hrec
      rw [List.cons.injEq] at hrec
      rw [hrec.1, hrec.2]

theorem pySplit_length (c : Char) (l : Str) :
    (pySplit c l).length = l.count c + 1 := by
  induction l with
  | nil => simp [pySplit]
  | cons x xs ih =>
    cases h : pySplit c xs with
    | nil => exact absurd h (pySplit_ne_nil c xs)
    | cons r rs =>
      rw [pySplit_cons_eq h, List.count_cons]
      rw [h] at ih
      by_cases hx : x = c
      · subst hx
        rw [if_pos rfl, beq_self_eq_true, if_pos rfl]
        simp only [List.length_cons] at *
        omega
      · rw [if_neg hx]
        have hxb : (if (x == c) = true then 1 else 0) = 0 := by simp [hx]
        rw [hxb]
        simp only [List.length_cons] at *
        omega

theorem count_one_decomp {c : Char} {l : Str} (h : l.count c = 1) :
    ∃ xs ys, l = xs ++ c :: ys ∧ c ∉ xs ∧ c ∉ ys := by
  induction l with
  | nil => simp [List.count_nil] at h
  | cons x xs ih =>
    by_cases hx : x = c
    · subst hx
      have hxs : xs.count x = 0 := by
        have hc := List.count_cons x x xs
        rw [h] at hc
        simpa using hc.symm
      exact ⟨[], xs, rfl, by simp, List.count_eq_zero.mp hxs⟩
    · have hcount : xs.count c = 1 := by
        have hc := List.count_cons c x xs
        rw [h] at hc
        have hxb : (x == c) = false := by simp [hx]
        simpa [hxb] using hc.symm
      obtain ⟨as, bs, hl, ha, hb⟩ := ih hcount
      refine ⟨x :: as, bs, by simp [hl], ?_, hb⟩
      intro hmem
      rcases List.mem_cons.mp hmem with h1 | h2
      · exact hx h1.symm
      · exact ha h2

theorem exists_concat_of_endsWithDelim {l : Str}
    (h : endsWithDelim l = true) :
    ∃ l' d, l = l' ++ [d] ∧ (d = '#' ∨ d = '>') := by
  rcases List.eq_nil_or_concat l with rfl | ⟨L, b, rfl⟩
  · simp [endsWithDelim] at h
  · rw [List.concat_eq_append] at *
    refine ⟨L, b, rfl, ?_⟩
    simp only [endsWithDelim, List.getLast?_concat, Bool.or_eq_true,
      beq_iff_eq, Option.some.injEq] at h
    tauto

/-! ## Characterization of `_set_base_prompt` -/

theorem base_pattern_step_eq (s : AsaState) :
    base_pattern_step s =
      (.ok s.base_prompt,
       { s with base_pattern := derive_base_pattern s.base_prompt }) := rfl

/-- The function `derive_base_pattern` decomposed as a prefix followed by the trailing
character class `[>|\#]` (the text between the brackets is
`['>', '|', '\\', '#']`). -/
theorem derive_base_pattern_shape (bp : Str) :
    derive_base_pattern bp =
      (pyReEscape (bp.take 12) ++ (".*(\\/\\w+)?(\\(.*?\\))?").data) ++
        '[' :: (['>', '|', '\\', '#'] ++ [']']) := by
  simp only [derive_base_pattern, patternMid, List.append_assoc, List.cons_append]
  congr 1

theorem set_base_prompt_no_slash (col : Collaborator) (s : AsaState)
    (hd : endsWithDelim col.rawPrompt = true) (hs : '/' ∉ col.rawPrompt) :
    _set_base_prompt col s =
      (.ok col.rawPrompt.dropLast,
       { s with base_prompt := col.rawPrompt.dropLast,
                current_context := "system".data,
                base_pattern := derive_base_pattern col.rawPrompt.dropLast,
                trace := s.trace ++ [.findPrompt],
                find_prompt_calls := s.find_prompt_calls + 1 }) := by
  have hsub : isSubstrOf ['/'] col.rawPrompt = false := by
    cases h : isSubstrOf ['/'] col.rawPrompt
    · rfl
    · exact absurd ((isSubstrOf_singleton _ _).mp h) hs
  simp only [_set_base_prompt, _find_prompt, hd, if_true, hsub,
    Bool.false_eq_true, if_false, base_pattern_step_eq]

theorem set_base_prompt_one_slash (col : Collaborator) (s : AsaState)
    {NAME CTX : Str} {d : Char}
    (hraw : col.rawPrompt = NAME ++ '/' :: (CTX ++ [d]))
    (hd : d = '#' ∨ d = '>') (h1 : '/' ∉ NAME) (h2 : '/' ∉ CTX) :
    _set_base_prompt col s =
      (.ok NAME,
       { s with base_prompt := NAME, current_context := CTX,
                base_pattern := derive_base_pattern NAME,
                trace := s.trace ++ [.findPrompt],
                find_prompt_calls := s.find_prompt_calls + 1 }) := by
  have hconc : col.rawPrompt = (NAME ++ '/' :: CTX) ++ [d] := by
    rw [hraw]
    simp [List.append_assoc]
  have hdelim : endsWithDelim col.rawPrompt = true := by
    rw [hconc]
    unfold endsWithDelim
    rw [List.getLast?_concat]
    rcases hd with rfl | rfl <;> simp
  have hmem : '/' ∈ col.rawPrompt := by
    rw [hraw]
    exact List.mem_append_right _ (List.mem_cons_self _ _)
  have hsub : isSubstrOf ['/'] col.rawPrompt = true :=
    (isSubstrOf_singleton _ _).mpr hmem
  have hsplit : pySplit '/' col.rawPrompt.dropLast = [NAME, CTX] := by
    rw [hconc, List.dropLast_concat, pySplit_append h1, pySplit_of_not_mem h2]
  simp only [_set_base_prompt, _find_prompt, hdelim, if_true, hsub,
    hsplit, base_pattern_step_eq]

/-- Under the collaborator's delimiter guarantee, the parse succeeds
whenever the raw prompt contains at most one `/`. -/
theorem set_base_prompt_ok_of_count (col : Collaborator) (s : AsaState)
    (hd : endsWithDelim col.rawPrompt = true)
    (hc : col.rawPrompt.count '/' ≤ 1) :
    ∃ bp ctx, _set_base_prompt col s =
      (.ok bp,
       { s with base_prompt := bp, current_context := ctx,
                base_pattern := derive_base_pattern bp,
                trace := s.trace ++ [.findPrompt],
                find_prompt_calls := s.find_prompt_calls + 1 }) := by
  rcases Nat.lt_or_ge (col.rawPrompt.count '/') 1 with h0 | h1
  · have hz : col.rawPrompt.count '/' = 0 := by omega
    have hs : '/' ∉ col.rawPrompt := List.count_eq_zero.mp hz
    exact ⟨col.rawPrompt.dropLast, "system".data,
      set_base_prompt_no_slash col s hd hs⟩
  · have hone : col.rawPrompt.count '/' = 1 := by omega
    obtain ⟨xs, ys, hl, hxs, hys⟩ := count_one_decomp hone
    rcases List.eq_nil_or_concat ys with rfl | ⟨CTX, d, hys2⟩
    · exfalso
      have : endsWithDelim col.rawPrompt = false := by
        rw [hl]
        show endsWithDelim (xs ++ ['/']) = false
        unfold endsWithDelim
        rw [List.getLast?_concat]
        decide
      rw [this] at hd
      exact Bool.false_ne_true hd
    · rw [List.concat_eq_append] at hys2
      subst hys2
      have hctx : '/' ∉ CTX := fun m => hys (List.mem_append_left _ m)
      have hdd : d = '#' ∨ d = '>' := by
        have hconc : col.rawPrompt = (xs ++ '/' :: CTX) ++ [d] := by
          rw [hl]
          simp [List.append_assoc]
        rw [hconc] at hd
        unfold endsWithDelim at hd
        rw [List.getLast?_concat] at hd
        simp only [Bool.or_eq_true, beq_iff_eq, Option.some.injEq] at hd
        tauto
      exact ⟨xs, CTX, set_base_prompt_one_slash col s hl hdd hxs hctx⟩

/-- Complete case split of the parser: it either succeeds, storing the new
identity and pattern, or fails leaving the identity untouched; either way
the prompt-discovery primitive ran exactly once more. -/
theorem set_base_prompt_cases (col : Collaborator) (s : AsaState) :
    (∃ bp ctx, _set_base_prompt col s =
      (.ok bp,
       { s with base_prompt := bp, current_context := ctx,
                base_pattern := derive_base_pattern bp,
                trace := s.trace ++ [.findPrompt],
                find_prompt_calls := s.find_prompt_calls + 1 })) ∨
    (∃ e, _set_base_prompt col s =
      (.error e,
       { s with trace := s.trace ++ [.findPrompt],
                find_prompt_calls := s.find_prompt_calls + 1 })) := by
  by_cases hd : endsWithDelim col.rawPrompt = true
  · by_cases hs : isSubstrOf ['/'] col.rawPrompt = true
    · cases hsp : pySplit '/' col.rawPrompt.dropLast with
      | nil => exact absurd hsp (pySplit_ne_nil _ _)
      | cons p rest =>
        cases rest with
        | nil =>
          right
          refine ⟨.valueError, ?_⟩
          simp only [_set_base_prompt, _find_prompt, hd, if_true, hs, hsp]
        | cons q rest2 =>
          cases rest2 with
          | nil =>
            left
            refine ⟨p, q, ?_⟩
            simp only [_set_base_prompt, _find_prompt, hd, if_true, hs, hsp,
              base_pattern_step_eq]
          | cons z zs =>
            right
            refine ⟨.valueError, ?_⟩
            simp only [_set_base_prompt, _find_prompt, hd, if_true, hs, hsp]
    · left
      have hs' : '/' ∉ col.rawPrompt := fun m =>
        hs ((isSubstrOf_singleton _ _).mpr m)
      exact ⟨_, _, set_base_prompt_no_slash col s hd hs'⟩
  · right
    rw [Bool.not_eq_true] at hd
    refine ⟨.malformedPrompt, ?_⟩
    simp only [_set_base_prompt, _find_prompt, hd, Bool.false_eq_true, if_false]

/-! ## Characterization of `send_command` and `_check_multiple_mode` -/

theorem send_command_base_eq (col : Collaborator) (s : AsaState)
    (cmd : Str) (sp sc : Bool) :
    send_command_base col s cmd sp sc =
      (.ok (col.respond cmd sp sc),
       { s with trace := s.trace ++ [.send cmd] }) := rfl

theorem send_command_no_marker (col : Collaborator) (s : AsaState)
    (cmd : Str) (sp sc : Bool)
    (h : isSubstrOf ("changet").data cmd = false) :
    send_command col s cmd sp sc =
      (.ok (col.respond cmd sp sc),
       { s with trace := s.trace ++ [.send cmd] }) := by
  simp only [send_command, send_command_base, h, Bool.false_eq_true, if_false]

theorem send_command_marker (col : Collaborator) (s : AsaState)
    (cmd : Str) (sp sc : Bool)
    (h : isSubstrOf ("changet").data cmd = true) :
    send_command col s cmd sp sc =
      (match _set_base_prompt col { s with trace := s.trace ++ [.send cmd] } with
       | (.error e, s2) => (.error e, s2)
       | (.ok _, s2) => (.ok (col.respond cmd sp sc), s2)) := by
  simp only [send_command, send_command_base, h, if_true]

/-- The prompt-discovery primitive runs once more exactly when the
command text contains the marker substring. -/
theorem send_command_calls (col : Collaborator) (s : AsaState)
    (cmd : Str) (sp sc : Bool) :
    (send_command col s cmd sp sc).2.find_prompt_calls =
      s.find_prompt_calls +
        (if isSubstrOf ("changet").data cmd = true then 1 else 0) := by
  by_cases hm : isSubstrOf ("changet").data cmd = true
  · rw [send_command_marker col s cmd sp sc hm, if_pos hm]
    rcases set_base_prompt_cases col { s with trace := s.trace ++ [.send cmd] }
      with ⟨bp, ctx, heq⟩ | ⟨e, heq⟩ <;> rw [heq]
  · rw [Bool.not_eq_true] at hm
    rw [send_command_no_marker col s cmd sp sc hm]
    simp [hm]

theorem check_multiple_mode_eq (col : Collaborator) (s : AsaState) :
    _check_multiple_mode col s =
      (.ok (),
       { s with trace := s.trace ++ [.send ("show mode").data],
                multiple_mode := s.multiple_mode ||
                  isSubstrOf ("multiple").data
                    (col.respond ("show mode").data true true) }) := by
  have hm : isSubstrOf ("changet").data ("show mode").data = false := by decide
  simp only [_check_multiple_mode, send_command_no_marker col s _ true true hm]
  cases hsub : isSubstrOf ("multiple").data (col.respond ("show mode").data true true)
  · simp
  · simp

theorem set_base_prompt_malformed (col : Collaborator) (s : AsaState)
    (h : endsWithDelim col.rawPrompt = false) :
    _set_base_prompt col s =
      (.error .malformedPrompt,
       { s with trace := s.trace ++ [.findPrompt],
                find_prompt_calls := s.find_prompt_calls + 1 }) := by
  simp only [_set_base_prompt, _find_prompt, h, Bool.false_eq_true, if_false]

/-- With two or more `/` occurrences the tuple unpacking of the split
fails: a Python `ValueError`, not the spec's `MalformedPromptError`. -/
theorem set_base_prompt_two_slash (col : Collaborator) (s : AsaState)
    (hd : endsWithDelim col.rawPrompt = true)
    (hc : 2 ≤ col.rawPrompt.count '/') :
    _set_base_prompt col s =
      (.error .valueError,
       { s with trace := s.trace ++ [.findPrompt],
                find_prompt_calls := s.find_prompt_calls + 1 }) := by
  have hmem : '/' ∈ col.rawPrompt := List.count_pos_iff.mp (by omega)
  have hs : isSubstrOf ['/'] col.rawPrompt = true :=
    (isSubstrOf_singleton _ _).mpr hmem
  obtain ⟨l', d, hl, hdd⟩ := exists_concat_of_endsWithDelim hd
  have hdslash : ¬(d = '/') := by rcases hdd with rfl | rfl <;> decide
  have hcount : 2 ≤ l'.count '/' := by
    have : col.rawPrompt.count '/' = l'.count '/' + [d].count '/' :=
      hl ▸ List.count_append '/' l' [d]
    have hz : ([d].count '/') = 0 := by
      rw [List.count_eq_zero]
      simp only [List.mem_singleton]
      intro e
      exact hdslash e.symm
    omega
  have hdrop : col.rawPrompt.dropLast = l' := by
    rw [hl]
    exact List.dropLast_concat
  have hlen : 3 ≤ (pySplit '/' l').length := by
    rw [pySplit_length]
    omega
  obtain ⟨a, b, c, rest, hsp⟩ :
      ∃ a b c rest, pySplit '/' l' = a :: b :: c :: rest := by
    rcases h1 : pySplit '/' l' with _ | ⟨a, _ | ⟨b, _ | ⟨c, rest⟩⟩⟩ <;>
      rw [h1] at hlen <;> simp at hlen
    · exact ⟨a, b, c, rest, rfl⟩
  have hsp' : pySplit '/' col.rawPrompt.dropLast = a :: b :: c :: rest := by
    rw [hdrop, hsp]
  simp only [_set_base_prompt, _find_prompt, hd, if_true, hs, hsp']

/-! ## Characterization of `connect` -/


/-! ## Claim theorems -/

/-- C1 (counterexample): the claim fails on a raw prompt containing two
`/` separators.  For `"a/b/c#"` the claim predicts
`currentContext = "c"` and `basePrompt = "a/b"`, but the parser raises a
`ValueError` from the two-element tuple unpacking and stores neither. -/
theorem prompt_parse_multislash_counterexample :
    (_set_base_prompt (mkCol "a/b/c#") initState).1 = .error .valueError ∧
    ¬((_set_base_prompt (mkCol "a/b/c#") initState).2.current_context =
        ("c").data) ∧
    ¬((_set_base_prompt (mkCol "a/b/c#") initState).2.base_prompt =
        ("a/b").data) := by
  decide

/-- C1 (amended): for every raw prompt containing exactly one `/`, i.e.
of the form `NAME/CTX` followed by a delimiter with `NAME` and `CTX`
slash-free, the parser strips the trailing delimiter and splits at the
`/`: `currentContext = CTX` and `basePrompt = NAME`.  (Raw prompts with
two or more `/` make the parse fail instead of splitting at the last
`/`.) -/
theorem prompt_parse_slash_context (col : Collaborator) (s : AsaState)
    (NAME CTX : Str) (d : Char)
    (hraw : col.rawPrompt = NAME ++ '/' :: (CTX ++ [d]))
    (hd : d = '#' ∨ d = '>') (h1 : '/' ∉ NAME) (h2 : '/' ∉ CTX) :
    ∃ s', _set_base_prompt col s = (.ok NAME, s') ∧
      s'.base_prompt = NAME ∧ s'.current_context = CTX :=
  ⟨_, set_base_prompt_one_slash col s hraw hd h1 h2, rfl, rfl⟩

/-- C1 witness: `"ciscoasa/admin#"` parses to `basePrompt = "ciscoasa"`,
`currentContext = "admin"`. -/
theorem prompt_parse_slash_context_witness :
    ∃ s', _set_base_prompt (mkCol "ciscoasa/admin#") initState =
        (.ok ("ciscoasa").data, s') ∧
      s'.base_prompt = ("ciscoasa").data ∧
      s'.current_context = ("admin").data :=
  prompt_parse_slash_context (mkCol "ciscoasa/admin#") initState
    ("ciscoasa").data ("admin").data '#' (by decide) (Or.inl rfl)
    (by decide) (by decide)

/-- C2 (counterexample): a raw prompt can end with a delimiter and still
make `_set_base_prompt` fail — `"a/b/c#"` ends with `#` but the parse
raises `ValueError`, so "every raw prompt that ends with a delimiter
succeeds without error" is false. -/
theorem prompt_parse_delimited_failure_counterexample :
    endsWithDelim ("a/b/c#").data = true ∧
    (_set_base_prompt (mkCol "a/b/c#") initState).1 = .error .valueError := by
  decide

/-- C2 (amended): `_set_base_prompt` fails with `MalformedPromptError`
for every raw prompt that does not end with a delimiter; for raw prompts
that do end with a delimiter it succeeds when they contain at most one
`/`, and fails with a different error (Python `ValueError` from tuple
unpacking) when they contain two or more. -/
theorem prompt_parse_failure_modes (col : Collaborator) (s : AsaState) :
    (endsWithDelim col.rawPrompt = false →
      (_set_base_prompt col s).1 = .error .malformedPrompt) ∧
    (endsWithDelim col.rawPrompt = true → col.rawPrompt.count '/' ≤ 1 →
      ∃ bp, (_set_base_prompt col s).1 = .ok bp) ∧
    (endsWithDelim col.rawPrompt = true → 2 ≤ col.rawPrompt.count '/' →
      (_set_base_prompt col s).1 = .error .valueError) := by
  refine ⟨?_, ?_, ?_⟩
  · intro h
    rw [set_base_prompt_malformed col s h]
  · intro hd hc
    obtain ⟨bp, ctx, heq⟩ := set_base_prompt_ok_of_count col s hd hc
    exact ⟨bp, by rw [heq]⟩
  · intro hd hc
    rw [set_base_prompt_two_slash col s hd hc]

/-- C2 witness: the undelimited raw prompt `"cisco"` fails with
`MalformedPromptError`, and the delimited `"fw#"` succeeds. -/
theorem prompt_parse_failure_modes_witness :
    (_set_base_prompt (mkCol "cisco") initState).1 = .error .malformedPrompt ∧
    ∃ bp, (_set_base_prompt (mkCol "fw#") initState).1 = .ok bp :=
  ⟨(prompt_parse_failure_modes (mkCol "cisco") initState).1 (by decide),
   (prompt_parse_failure_modes (mkCol "fw#") initState).2.1 (by decide)
     (by decide)⟩

/-- C7: every raw prompt `NAME` + delimiter with no `/` parses to
`currentContext = "system"` and `basePrompt = NAME` (the raw prompt with
exactly its trailing delimiter character stripped). -/
theorem prompt_parse_no_slash_system (col : Collaborator) (s : AsaState)
    (NAME : Str) (d : Char)
    (hraw : col.rawPrompt = NAME ++ [d])
    (hd : d = '#' ∨ d = '>') (h1 : '/' ∉ NAME) :
    ∃ s', _set_base_prompt col s = (.ok NAME, s') ∧
      s'.base_prompt = NAME ∧ s'.current_context = ("system").data := by
  have hdelim : endsWithDelim col.rawPrompt = true := by
    rw [hraw]
    unfold endsWithDelim
    rw [List.getLast?_concat]
    rcases hd with rfl | rfl <;> decide
  have hs : '/' ∉ col.rawPrompt := by
    rw [hraw]
    intro hm
    rcases List.mem_append.mp hm with h | h
    · exact h1 h
    · have e := List.mem_singleton.mp h
      rcases hd with rfl | rfl <;> exact absurd e (by decide)
  have hrun := set_base_prompt_no_slash col s hdelim hs
  have hdrop : col.rawPrompt.dropLast = NAME := by
    rw [hraw]
    exact List.dropLast_concat
  rw [hdrop] at hrun
  exact ⟨_, hrun, rfl, rfl⟩

/-- C7 witness: `"ciscoasa#"` parses to `basePrompt = "ciscoasa"`,
`currentContext = "system"` (Scenario A). -/
theorem prompt_parse_no_slash_system_witness :
    ∃ s', _set_base_prompt (mkCol "ciscoasa#") initState =
        (.ok ("ciscoasa").data, s') ∧
      s'.base_prompt = ("ciscoasa").data ∧
      s'.current_context = ("system").data :=
  prompt_parse_no_slash_system (mkCol "ciscoasa#") initState
    ("ciscoasa").data '#' (by decide) (Or.inl rfl) (by decide)

/-- C8: the catalog lookup is a pure function over the fixed mapping:
`'>'` for `delimeter1`, `'#'` for `delimeter2`, and every name outside
the recognized key set fails with `UnknownCommandKind` (Python
`KeyError`). -/
theorem catalog_lookup_spec :
    _get_default_command "delimeter1" = .ok ">" ∧
    _get_default_command "delimeter2" = .ok "#" ∧
    ∀ name, name ∉ command_mapper.map Prod.fst →
      _get_default_command name = .error (.keyError name) := by
  refine ⟨rfl, rfl, ?_⟩
  intro name hname
  unfold _get_default_command
  have hfind : command_mapper.find? (fun p => p.1 == name) = none := by
    rw [List.find?_eq_none]
    intro p hp hbeq
    exact hname (List.mem_map.mpr ⟨p, hp, beq_iff_eq.mp hbeq⟩)
  rw [hfind]

/-- C8 witness: the unrecognized name `"reload"` fails with
`UnknownCommandKind` (Scenario E). -/
theorem catalog_lookup_spec_witness :
    _get_default_command "reload" = .error (.keyError "reload") :=
  catalog_lookup_spec.2.2 "reload" (by decide)

/-- C3: `send_command` returns exactly the output of the collaborator's
generic command-send primitive for the original command — never the
refresh's result — and it re-runs prompt discovery plus prompt parsing
(one extra prompt-discovery invocation and a `_set_base_prompt` pass)
if and only if the command text contains the substring `"changet"`, a
plain substring match with no semantic check. -/
theorem send_command_dispatch_spec (col : Collaborator) (s : AsaState)
    (cmd : Str) (sp sc : Bool) :
    (∀ out s', send_command col s cmd sp sc = (.ok out, s') →
      out = col.respond cmd sp sc) ∧
    ((send_command col s cmd sp sc).2.find_prompt_calls =
      s.find_prompt_calls +
        (if isSubstrOf ("changet").data cmd = true then 1 else 0)) ∧
    (isSubstrOf ("changet").data cmd = false →
      send_command col s cmd sp sc = send_command_base col s cmd sp sc) ∧
    (isSubstrOf ("changet").data cmd = true →
      send_command col s cmd sp sc =
        (match _set_base_prompt col
            { s with trace := s.trace ++ [.send cmd] } with
         | (.error e, s2) => (.error e, s2)
         | (.ok _, s2) => (.ok (col.respond cmd sp sc), s2))) := by
  refine ⟨?_, send_command_calls col s cmd sp sc, ?_, ?_⟩
  · intro out s' heq
    by_cases hm : isSubstrOf ("changet").data cmd = true
    · rw [send_command_marker col s cmd sp sc hm] at heq
      rcases set_base_prompt_cases col { s with trace := s.trace ++ [.send cmd] }
        with ⟨bp, ctx, h2⟩ | ⟨e, h2⟩ <;> rw [h2] at heq
      · simp only [Prod.mk.injEq, Except.ok.injEq] at heq
        exact heq.1.symm
      · simp at heq
    · rw [Bool.not_eq_true] at hm
      rw [send_command_no_marker col s cmd sp sc hm] at heq
      simp only [Prod.mk.injEq, Except.ok.injEq] at heq
      exact heq.1.symm
  · intro hm
    rw [send_command_no_marker col s cmd sp sc hm, send_command_base_eq]
  · intro hm
    exact send_command_marker col s cmd sp sc hm

/-- C3 witness: `"changeto context admin"` contains the marker, so the
dispatch equals the base send followed by the re-parse (Scenario C). -/
theorem send_command_dispatch_spec_witness :
    send_command asaCol initState ("changeto context admin").data true true =
      (match _set_base_prompt asaCol
          { initState with
              trace := initState.trace ++ [.send ("changeto context admin").data] } with
       | (.error e, s2) => (.error e, s2)
       | (.ok _, s2) =>
          (.ok (asaCol.respond ("changeto context admin").data true true), s2)) :=
  (send_command_dispatch_spec asaCol initState
    ("changeto context admin").data true true).2.2.2 (by decide)

/-- C4: starting from `multipleMode = false`, after `_check_multiple_mode`
the flag is true iff the response to `show mode` contains the substring
`"multiple"`. -/
theorem check_multiple_mode_spec (col : Collaborator) (s : AsaState)
    (hmode : s.multiple_mode = false) :
    ((_check_multiple_mode col s).2.multiple_mode = true ↔
      isSubstrOf ("multiple").data
        (col.respond ("show mode").data true true) = true) := by
  rw [check_multiple_mode_eq]
  simp [hmode]

/-- C4 witness: the response `"Security context mode: multiple"` yields
`multipleMode = true` (Scenario D). -/
theorem check_multiple_mode_spec_witness :
    (_check_multiple_mode asaCol initState).2.multiple_mode = true ↔
      isSubstrOf ("multiple").data
        (asaCol.respond ("show mode").data true true) = true :=
  check_multiple_mode_spec asaCol initState rfl

/-- C9: the context-refresh trigger ignores `multiple_mode`: a command
containing `"changet"` causes one extra prompt-discovery invocation even
when the session is in single-context mode (`multiple_mode = false`). -/
theorem send_command_refresh_single_mode (col : Collaborator) (s : AsaState)
    (cmd : Str) (sp sc : Bool)
    (hm : isSubstrOf ("changet").data cmd = true)
    (_hmode : s.multiple_mode = false) :
    (send_command col s cmd sp sc).2.find_prompt_calls =
      s.find_prompt_calls + 1 := by
  rw [send_command_calls col s cmd sp sc, if_pos hm]

/-- C9 witness: `"changeto system"` triggers the refresh from the
freshly constructed state, whose `multiple_mode` is false. -/
theorem send_command_refresh_single_mode_witness :
    (send_command asaCol initState ("changeto system").data true true).2.find_prompt_calls =
      initState.find_prompt_calls + 1 :=
  send_command_refresh_single_mode asaCol initState ("changeto system").data
    true true (by decide) rfl

/-- C5: after every successful `_set_base_prompt`, `basePattern` is
exactly the pattern re-derived from the stored `basePrompt` and the
catalog delimiters: escaped 12-character prefix, `.*`, optional
`/contextname` group, optional parenthetical group, and a trailing
character class `[>|\#]` that contains both delimiter characters,
regardless of prompt content. -/
theorem base_pattern_invariant (col : Collaborator) (s : AsaState)
    (bp : Str) (s' : AsaState)
    (h : _set_base_prompt col s = (.ok bp, s')) :
    s'.base_pattern = derive_base_pattern s'.base_prompt ∧
    ∃ pre, s'.base_pattern = pre ++ '[' :: (['>', '|', '\\', '#'] ++ [']']) ∧
      '>' ∈ classChars ['>', '|', '\\', '#'] ∧
      '#' ∈ classChars ['>', '|', '\\', '#'] := by
  rcases set_base_prompt_cases col s with ⟨bp2, ctx, heq⟩ | ⟨e, heq⟩
  · rw [heq] at h
    simp only [Prod.mk.injEq, Except.ok.injEq] at h
    obtain ⟨hbp, hs'⟩ := h
    subst hs'
    refine ⟨rfl, ?_⟩
    exact ⟨_, derive_base_pattern_shape bp2, by decide, by decide⟩
  · rw [heq] at h
    simp at h

/-- C5 witness: the parse of `"ciscoasa#"` satisfies the pattern
invariant. -/
theorem base_pattern_invariant_witness :
    (_set_base_prompt (mkCol "ciscoasa#") initState).2.base_pattern =
      derive_base_pattern
        (_set_base_prompt (mkCol "ciscoasa#") initState).2.base_prompt ∧
    ∃ pre, (_set_base_prompt (mkCol "ciscoasa#") initState).2.base_pattern =
        pre ++ '[' :: (['>', '|', '\\', '#'] ++ [']']) ∧
      '>' ∈ classChars ['>', '|', '\\', '#'] ∧
      '#' ∈ classChars ['>', '|', '\\', '#'] :=
  base_pattern_invariant (mkCol "ciscoasa#") initState ("ciscoasa").data
    (_set_base_prompt (mkCol "ciscoasa#") initState).2 (by decide)

/-- C10: the trailing character class of every derived `basePattern`
contains a literal `|` in addition to the two delimiters — the format
`[{}|{}]` places `|` inside the brackets, so the pattern also accepts
`|` as a prompt-terminating character. -/
theorem base_pattern_class_pipe (col : Collaborator) (s : AsaState)
    (bp : Str) (s' : AsaState)
    (h : _set_base_prompt col s = (.ok bp, s')) :
    ∃ pre cls, s'.base_pattern = pre ++ '[' :: (cls ++ [']']) ∧
      '|' ∈ classChars cls ∧ '>' ∈ classChars cls ∧ '#' ∈ classChars cls := by
  rcases set_base_prompt_cases col s with ⟨bp2, ctx, heq⟩ | ⟨e, heq⟩
  · rw [heq] at h
    simp only [Prod.mk.injEq, Except.ok.injEq] at h
    obtain ⟨hbp, hs'⟩ := h
    subst hs'
    exact ⟨_, ['>', '|', '\\', '#'], derive_base_pattern_shape bp2,
      by decide, by decide, by decide⟩
  · rw [heq] at h
    simp at h

/-- C10 witness: the pattern derived from `"gw>"` has `|` in its
trailing character class. -/
theorem base_pattern_class_pipe_witness :
    ∃ pre cls,
      (_set_base_prompt (mkCol "gw>") initState).2.base_pattern =
        pre ++ '[' :: (cls ++ [']']) ∧
      '|' ∈ classChars cls ∧ '>' ∈ classChars cls ∧ '#' ∈ classChars cls :=
  base_pattern_class_pipe (mkCol "gw>") initState ("gw").data
    (_set_base_prompt (mkCol "gw>") initState).2 (by decide)

/-- C6: `connect` runs transport establishment, prompt discovery plus
prompt parsing, privileged-mode entry, paging suppression and mode
detection strictly in this order; it either completes with the identity
and mode fields populated, or stops at the first failing step with that
step's error, performing no later step and no retry — as witnessed by
the exact collaborator-invocation traces. -/
theorem connect_sequence_spec (col : Collaborator) :
    (col.establish_ok = false →
      connect col initState =
        (.error .transportError, { initState with trace := [.establish] })) ∧
    (col.establish_ok = true → endsWithDelim col.rawPrompt = false →
      connect col initState =
        (.error .malformedPrompt,
         { initState with trace := [.establish, .findPrompt],
                          find_prompt_calls := 1 })) ∧
    (col.establish_ok = true → endsWithDelim col.rawPrompt = true →
     2 ≤ col.rawPrompt.count '/' →
      connect col initState =
        (.error .valueError,
         { initState with trace := [.establish, .findPrompt],
                          find_prompt_calls := 1 })) ∧
    (col.establish_ok = true → endsWithDelim col.rawPrompt = true →
     col.rawPrompt.count '/' ≤ 1 → col.enable_ok = false →
      ∃ s3, connect col initState = (.error .transportError, s3) ∧
        s3.trace = [.establish, .findPrompt, .enable]) ∧
    (col.establish_ok = true → endsWithDelim col.rawPrompt = true →
     col.rawPrompt.count '/' ≤ 1 → col.enable_ok = true →
     col.disable_paging_ok = false →
      ∃ s4, connect col initState = (.error .transportError, s4) ∧
        s4.trace = [.establish, .findPrompt, .enable, .disablePaging]) ∧
    (col.establish_ok = true → endsWithDelim col.rawPrompt = true →
     col.rawPrompt.count '/' ≤ 1 → col.enable_ok = true →
     col.disable_paging_ok = true →
      ∃ s5, connect col initState = (.ok (), s5) ∧
        s5.trace = connectTrace ∧
        s5.multiple_mode =
          isSubstrOf ("multiple").data
            (col.respond ("show mode").data true true) ∧
        s5.base_pattern = derive_base_pattern s5.base_prompt ∧
        s5.find_prompt_calls = 1) := by
  refine ⟨?_, ?_, ?_, ?_, ?_, ?_⟩
  · intro h1
    simp only [connect, _establish_connection, h1, Bool.false_eq_true, if_false]
    rfl
  · intro h1 h2
    simp only [connect, _establish_connection, h1, if_true]
    rw [set_base_prompt_malformed col _ h2]
    rfl
  · intro h1 h2 h3
    simp only [connect, _establish_connection, h1, if_true]
    rw [set_base_prompt_two_slash col _ h2 h3]
    rfl
  · intro h1 h2 h3 h4
    simp only [connect, _establish_connection, h1, if_true]
    obtain ⟨bp, ctx, heq⟩ := set_base_prompt_ok_of_count col
      { initState with trace := initState.trace ++ [.establish] } h2 h3
    rw [heq]
    simp only [_enable, h4, Bool.false_eq_true, if_false]
    exact ⟨_, rfl, rfl⟩
  · intro h1 h2 h3 h4 h5
    simp only [connect, _establish_connection, h1, if_true]
    obtain ⟨bp, ctx, heq⟩ := set_base_prompt_ok_of_count col
      { initState with trace := initState.trace ++ [.establish] } h2 h3
    rw [heq]
    simp only [_enable, h4, if_true, _disable_paging, h5, Bool.false_eq_true,
      if_false]
    exact ⟨_, rfl, rfl⟩
  · intro h1 h2 h3 h4 h5
    simp only [connect, _establish_connection, h1, if_true]
    obtain ⟨bp, ctx, heq⟩ := set_base_prompt_ok_of_count col
      { initState with trace := initState.trace ++ [.establish] } h2 h3
    rw [heq]
    simp only [_enable, h4, if_true, _disable_paging, h5, if_true]
    rw [check_multiple_mode_eq]
    refine ⟨_, rfl, by simp [connectTrace, initState], by simp [initState],
      rfl, rfl⟩

/-- C6 witness: against a fully healthy collaborator, `connect` succeeds
with the full five-step trace, multiple mode detected, and the pattern
invariant holding. -/
theorem connect_sequence_spec_witness :
    ∃ s5, connect asaCol initState = (.ok (), s5) ∧
      s5.trace = connectTrace ∧
      s5.multiple_mode =
        isSubstrOf ("multiple").data
          (asaCol.respond ("show mode").data true true) ∧
      s5.base_pattern = derive_base_pattern s5.base_prompt ∧
      s5.find_prompt_calls = 1 :=
  (connect_sequence_spec asaCol).2.2.2.2.2 rfl (by decide) (by decide) rfl rfl
